import Mathlib

/-!
Verification of the MakerSG ESP32 flasher (script.js and its companion
install script).  The repository's pipeline resolves a selection triple to
a firmware descriptor via a manifest, fetches the image, and transfers it
to the device either through the esptool structured path or through the
raw chunked fallback (`fallbackRawStream`).  Each definition below is a
shallow embedding of the corresponding JavaScript function; byte buffers
are `List Nat`, JavaScript `null`-able fields are `Option`, and thrown
exceptions are explicit `Except`/`Bool` outcomes.
-/

namespace Flasher

/-- Chunk size `CHUNK_SIZE = 16 * 1024` from script.js. -/
def CHUNK_SIZE : Nat := 16 * 1024

/-- The chunking loop of `fallbackRawStream`:
`for(let offset=0; offset<total; offset += CHUNK_SIZE)` producing
`u8.slice(offset, Math.min(offset+CHUNK_SIZE, total))` at each step
(`(u8.drop offset).take CHUNK_SIZE` is that slice, since `take`
truncates at the end of the list). -/
def rawLoop (u8 : List Nat) (offset : Nat) : List (List Nat) :=
  if _h : offset < u8.length then
    ((u8.drop offset).take CHUNK_SIZE) :: rawLoop u8 (offset + CHUNK_SIZE)
  else []
termination_by u8.length - offset
decreasing_by simp only [CHUNK_SIZE]; omega

/-- The sequence of slices written by `fallbackRawStream`, in write order. -/
def rawChunks (u8 : List Nat) : List (List Nat) := rawLoop u8 0

/-- JavaScript `Math.round(num/den)` for non-negative `num/den`:
`⌊num/den + 1/2⌋ = ⌊(2*num + den)/(2*den)⌋`, computed exactly on `Nat`. -/
def jsRound (num den : Nat) : Nat := (2 * num + den) / (2 * den)

/-- The sizes of the slices of `fallbackRawStream`'s loop, computed from
the image length alone (`slice(offset, min(offset+CHUNK_SIZE,total))` has
`min CHUNK_SIZE (total-offset)` bytes). -/
def sizesLoop (total offset : Nat) : List Nat :=
  if _h : offset < total then
    min CHUNK_SIZE (total - offset) :: sizesLoop total (offset + CHUNK_SIZE)
  else []
termination_by total - offset
decreasing_by simp only [CHUNK_SIZE]; omega

/-- The sequence of write sizes of the raw fallback transfer. -/
def writeSizes (u8 : List Nat) : List Nat := (rawChunks u8).map List.length

/-- The percent values computed after each write of the loop:
`pct = Math.round((offset + slice.length) / total * 100)`, with `w` the
bytes already written before the current slice. -/
def percentsOfSizes (total : Nat) : Nat → List Nat → List Nat
  | _, [] => []
  | w, s :: rest => jsRound ((w + s) * 100) total :: percentsOfSizes total (w + s) rest

/-- The percent sequence reported at the chunk boundaries of
`fallbackRawStream` on image `u8`. -/
def percents (u8 : List Nat) : List Nat :=
  percentsOfSizes u8.length 0 (writeSizes u8)

/-- The percent values reported by the fetch loop of `installHandler`
when a `Content-Length` total is known: `Math.round(loaded/total*100)`
after each arrived chunk. -/
def fetchPercents (total : Nat) (chunkLens : List Nat) : List Nat :=
  percentsOfSizes total 0 chunkLens

/-- The mutable serial-session state of script.js: `state.port`,
`state.reader`, `state.writer` (each a Bool meaning "currently held"),
plus the two status texts touched by `disconnectSerial`. -/
structure SessionState where
  port : Bool
  reader : Bool
  writer : Bool
  serialStatus : String
  connectBtnText : String
deriving DecidableEq

/-- Outcome of the write loop of `fallbackRawStream`: the slices actually
written, the percent values reported, and whether all writes succeeded. -/
structure LoopOut where
  writes : List (List Nat)
  reportedPcts : List Nat
  ok : Bool
deriving DecidableEq

/-- The `for` loop body of `fallbackRawStream`: writes each chunk in
order, reporting `Math.round((offset+slice.length)/total*100)` after each
successful write.  `failAt = some i` means the `i`-th `writer.write`
throws (the loop stops there, the slice unwritten); `none` means every
write succeeds. -/
def rawRunLoop (total : Nat) : Nat → List (List Nat) → Option Nat → LoopOut
  | _, [], _ => ⟨[], [], true⟩
  | written, c :: rest, failAt =>
    if failAt = some 0 then ⟨[], [], false⟩
    else
      let r := rawRunLoop total (written + c.length) rest (failAt.map (· - 1))
      ⟨c :: r.writes, jsRound ((written + c.length) * 100) total :: r.reportedPcts, r.ok⟩

/-- The observable outcome of one call to `fallbackRawStream`. -/
structure RawRun where
  result : Except String Unit
  finalState : SessionState
  writes : List (List Nat)
  reported : List Nat
  writerAcquired : Bool
  writerReleased : Bool

/-- Model of `fallbackRawStream(u8)` from script.js: throws `'No serial port'` if
no port is held (before acquiring a writer), otherwise acquires the
output-stream writer, streams the 16 KiB chunks with a percent report
after each write, appends the final forced `updateProgress(100, ...)` on
success, rethrows a write error, and in the `finally` block releases the
writer lock and resets `state.writer` to null on every exit path. -/
def fallbackRawStream (s : SessionState) (u8 : List Nat) (failAt : Option Nat) : RawRun :=
  if s.port = false then
    { result := .error "No serial port", finalState := s, writes := [],
      reported := [], writerAcquired := false, writerReleased := false }
  else
    let r := rawRunLoop u8.length 0 (rawChunks u8) failAt
    { result := if r.ok then .ok () else .error "write failed",
      finalState := { s with writer := false },
      writes := r.writes,
      reported := if r.ok then r.reportedPcts ++ [100] else r.reportedPcts,
      writerAcquired := true,
      writerReleased := true }

/-- A session with an open port, as after a successful `connectSerial`. -/
def openSession : SessionState :=
  { port := true, reader := true, writer := false,
    serialStatus := "Connected", connectBtnText := "Disconnect" }

/-- An observable step of one `installHandler` operation. -/
inductive InstallEvent where
  /-- the `fetch(state.manifest.url)` + body-read of the firmware image -/
  | fetchImage
  /-- entry into the esptool structured path (`esploader.main()` /
  `flashData`) with the fetched image bytes -/
  | structuredAttempt (bytes : List Nat)
  /-- a call `fallbackRawStream(bin)` with the given bytes -/
  | fallbackAttempt (bytes : List Nat)
deriving DecidableEq

/-- How one `installHandler` invocation ends. -/
inductive InstallResult where
  /-- early return: `alert('Không có manifest')` -/
  | noManifestAlert
  /-- early return: `alert('Kết nối thiết bị trước khi nạp')` -/
  | noPortAlert
  /-- early return: the user declined the `confirm(...)` dialog -/
  | notConfirmed
  /-- the transfer finished -/
  | completed
  /-- the outer catch ran: `safeLog('Install failed:', ...)` -/
  | failed
deriving DecidableEq

/-- The external conditions one `installHandler` run can encounter:
which preconditions hold, whether the fetch succeeds and what bytes it
yields, whether the esptool capability is present, and whether the
structured path or the raw fallback throws. -/
structure InstallEnv where
  hasManifestUrl : Bool
  hasPort : Bool
  confirmed : Bool
  fetchOk : Bool
  fetchedBytes : List Nat
  esptoolAvailable : Bool
  structuredFails : Bool
  fallbackFails : Bool

/-- Does the event enter the raw fallback path? -/
def InstallEvent.isFallback : InstallEvent → Bool
  | .fallbackAttempt _ => true
  | _ => false

/-- Does the event enter the structured esptool path? -/
def InstallEvent.isStructured : InstallEvent → Bool
  | .structuredAttempt _ => true
  | _ => false

/-- Is the event the firmware fetch? -/
def InstallEvent.isFetch : InstallEvent → Bool
  | .fetchImage => true
  | _ => false

/-- Model of `installHandler` from script.js: guards (manifest url, port,
confirmation), one fetch of the firmware image, then the structured
esptool path when `window.ESPLoader && window.ESPTransport` is present —
whose failure is caught once and answered by a single
`fallbackRawStream(bin)` call on the already-fetched bytes — or the raw
fallback directly when esptool is absent.  An error escaping the
fallback reaches the outer catch and the operation ends `failed`. -/
def installHandler (env : InstallEnv) : InstallResult × List InstallEvent :=
  if env.hasManifestUrl = false then (.noManifestAlert, [])
  else if env.hasPort = false then (.noPortAlert, [])
  else if env.confirmed = false then (.notConfirmed, [])
  else if env.fetchOk = false then (.failed, [.fetchImage])
  else
    let bin := env.fetchedBytes
    if env.esptoolAvailable then
      if env.structuredFails then
        if env.fallbackFails then
          (.failed, [.fetchImage, .structuredAttempt bin, .fallbackAttempt bin])
        else
          (.completed, [.fetchImage, .structuredAttempt bin, .fallbackAttempt bin])
      else (.completed, [.fetchImage, .structuredAttempt bin])
    else
      if env.fallbackFails then (.failed, [.fetchImage, .fallbackAttempt bin])
      else (.completed, [.fetchImage, .fallbackAttempt bin])

/-- A run in which every precondition holds, esptool is present, the
structured path throws, and the fallback also throws. -/
def envStructFail : InstallEnv :=
  { hasManifestUrl := true, hasPort := true, confirmed := true,
    fetchOk := true, fetchedBytes := [1, 2], esptoolAvailable := true,
    structuredFails := true, fallbackFails := true }

/-- A session with no open port, as before `connectSerial` or after
`disconnectSerial`. -/
def closedSession : SessionState :=
  { port := false, reader := false, writer := false,
    serialStatus := "Not connected", connectBtnText := "Kết nối" }

/-- Model of `disconnectSerial` from script.js, modelled on its non-throwing
execution: `if(!state.port) return;` is a pure no-op; otherwise the
reader is cancelled and cleared, the writer closed (errors swallowed)
and cleared, the port closed (errors only logged), `state.port` set to
null and the status texts reset. -/
def disconnectSerial (s : SessionState) : SessionState :=
  if s.port = false then s
  else { port := false, reader := false, writer := false,
         serialStatus := "Not connected", connectBtnText := "Kết nối" }

/-- The shared state of the companion install script (part_000):
the three selections, the `isInstalling` flag, and the two buttons'
disabled state. -/
structure UIState where
  selectedProgram : Option String
  selectedChip : Option String
  selectedOled : Option String
  isInstalling : Bool
  installBtnDisabled : Bool
  downloadBtnDisabled : Bool
deriving DecidableEq

/-- Model of `updateButtons` from part_000:
`canInstall = selectedProgram && selectedChip && selectedOled && !isInstalling`,
`installBtn.disabled = !canInstall`,
`downloadBtn.disabled = !selectedProgram || isInstalling`. -/
def updateButtons (s : UIState) : UIState :=
  let canInstall := s.selectedProgram.isSome && s.selectedChip.isSome
      && s.selectedOled.isSome && !s.isInstalling
  { s with installBtnDisabled := !canInstall,
           downloadBtnDisabled := !s.selectedProgram.isSome || s.isInstalling }

/-- The entry guard and start of `handleInstall` from part_000: returns
immediately (second component `false`, state unchanged) when a selection
is missing or an install is already in flight; otherwise sets
`isInstalling = true` and runs `updateButtons()`. -/
def handleInstallStart (s : UIState) : UIState × Bool :=
  if s.selectedProgram.isNone || s.selectedChip.isNone || s.selectedOled.isNone
      || s.isInstalling then (s, false)
  else (updateButtons { s with isInstalling := true }, true)

/-- The completion step of `handleInstall` (the final `setTimeout` body):
`isInstalling = false; updateButtons();`. -/
def handleInstallFinish (s : UIState) : UIState :=
  updateButtons { s with isInstalling := false }

/-- part_000 state with everything selected and an install in flight. -/
def busyUI : UIState :=
  { selectedProgram := some "mochinav", selectedChip := some "ESP32-S3-M16R8",
    selectedOled := some "OLED-0.91", isInstalling := true,
    installBtnDisabled := true, downloadBtnDisabled := true }

/-- part_000 state with everything selected and no install in flight. -/
def idleUI : UIState :=
  { busyUI with isInstalling := false, installBtnDisabled := false,
                downloadBtnDisabled := false }

/-- A manifest entry as stored in manifest.json (the fields
`onSelectionChanged` reads). -/
structure FirmwareEntry where
  version : Option String
  size : Option Nat
  sha256 : Option String
  url : Option String
deriving DecidableEq

/-- The program-id mapping of the compat `onSelectionChanged`:
`state.program === 'chatbot' ? 'ChatBotAI' : (state.program === 'mochinav' ? 'MochiNav' : state.program)`. -/
def progKeyCompat (program : String) : String :=
  if program = "chatbot" then "ChatBotAI"
  else if program = "mochinav" then "MochiNav"
  else program

/-- The canonical manifest key of the compat handler: progKey,
state.chip and state.oled joined with the '|' delimiter. -/
def canonicalKey (program chip oled : String) : String :=
  progKeyCompat program ++ "|" ++ chip ++ "|" ++ oled

/-- The selection state read and written by `onSelectionChanged`. -/
structure SelState where
  program : Option String
  chip : Option String
  oled : Option String
  manifest : Option FirmwareEntry
  installDisabled : Bool
  downloadDisabled : Bool
deriving DecidableEq

/-- The compat `onSelectionChanged`: returns unchanged unless all three
selections are present; otherwise looks the canonical key up in the
manifest (`manifestMap[key] || null`), stores the entry (or null) in
`state.manifest`, and enables the install/download buttons exactly when
an entry was found. -/
def onSelectionChanged (manifestMap : List (String × FirmwareEntry))
    (s : SelState) : SelState :=
  match s.program, s.chip, s.oled with
  | some p, some c, some o =>
      let entry := manifestMap.lookup (canonicalKey p c o)
      { s with manifest := entry,
               installDisabled := entry.isNone,
               downloadDisabled := entry.isNone }
  | _, _, _ => s

/-- The descriptor stored in the witness manifest for C2. -/
def sampleEntry : FirmwareEntry :=
  { version := some "v1.0", size := some 123456,
    sha256 := some "ab12", url := some "fw.bin" }

/-- A one-entry manifest keyed by the canonical ChatBotAI triple. -/
def sampleManifest : List (String × FirmwareEntry) :=
  [("ChatBotAI|ESP32-S3-M16R8|OLED-1.3", sampleEntry)]

/-- A fully-populated selection of the chatbot program. -/
def sampleSel : SelState :=
  { program := some "chatbot", chip := some "ESP32-S3-M16R8",
    oled := some "OLED-1.3", manifest := none,
    installDisabled := true, downloadDisabled := true }

/-- The program-id mapping of the original `onSelectionChanged` (second
script version): `state.program === 'chatbot' ? 'ChatBotAI' : 'MochiNav'`. -/
def progKeyOrig (program : String) : String :=
  if program = "chatbot" then "ChatBotAI" else "MochiNav"

/-- The canonical key of the original handler. -/
def canonicalKeyOrig (program chip oled : String) : String :=
  progKeyOrig program ++ "|" ++ chip ++ "|" ++ oled

theorem chunk_size_pos : 0 < CHUNK_SIZE := by decide

theorem rawLoop_join (u8 : List Nat) :
    ∀ (n offset : Nat), u8.length - offset ≤ n →
      (rawLoop u8 offset).flatten = u8.drop offset := by
  intro n
  induction n with
  | zero =>
    intro offset hle
    rw [rawLoop, dif_neg (by omega), List.flatten_nil,
        List.drop_eq_nil_of_le (by omega)]
  | succ n ih =>
    intro offset hle
    rw [rawLoop]
    split
    · rename_i h
      have hC := chunk_size_pos
      rw [List.flatten_cons, ih (offset + CHUNK_SIZE) (by omega)]
      rw [← List.drop_drop, List.take_append_drop]
    · rename_i h
      rw [List.flatten_nil, List.drop_eq_nil_of_le (by omega)]

theorem rawLoop_length_le (u8 : List Nat) :
    ∀ (n offset : Nat), u8.length - offset ≤ n →
      ∀ c ∈ rawLoop u8 offset, c.length ≤ CHUNK_SIZE := by
  intro n
  induction n with
  | zero =>
    intro offset hle c hc
    rw [rawLoop, dif_neg (by omega)] at hc
    simp at hc
  | succ n ih =>
    intro offset hle c hc
    rw [rawLoop] at hc
    split at hc
    · rename_i h
      have hC := chunk_size_pos
      rcases List.mem_cons.1 hc with rfl | hmem
      · exact List.length_take_le _ _
      · exact ih (offset + CHUNK_SIZE) (by omega) c hmem
    · simp at hc

theorem rawLoop_dropLast_full (u8 : List Nat) :
    ∀ (n offset : Nat), u8.length - offset ≤ n →
      ∀ c ∈ (rawLoop u8 offset).dropLast, c.length = CHUNK_SIZE := by
  intro n
  induction n with
  | zero =>
    intro offset hle c hc
    rw [rawLoop, dif_neg (by omega)] at hc
    simp at hc
  | succ n ih =>
    intro offset hle c hc
    rw [rawLoop] at hc
    split at hc
    · rename_i h
      have hC := chunk_size_pos
      cases hrest : rawLoop u8 (offset + CHUNK_SIZE) with
      | nil => rw [hrest] at hc; simp at hc
      | cons a l =>
        rw [hrest, List.dropLast_cons_of_ne_nil (by simp)] at hc
        rcases List.mem_cons.1 hc with rfl | hmem
        · -- the tail is nonempty, so offset + CHUNK_SIZE < u8.length,
          -- hence this slice is a full chunk
          have hlt : offset + CHUNK_SIZE < u8.length := by
            by_contra hge
            rw [rawLoop, dif_neg (by omega)] at hrest
            exact (List.cons_ne_nil a l) hrest.symm
          simp only [List.length_take, List.length_drop]
          omega
        · have := ih (offset + CHUNK_SIZE) (by omega)
          rw [hrest] at this
          exact this c hmem
    · simp at hc

/-- C1: the raw fallback transfer slices the image into consecutive
16384-byte chunks (last possibly shorter) and writes them in order:
concatenating all written slices in write order reproduces the original
image byte-for-byte (so the slices are exhaustive and non-overlapping),
for every image including sizes 0, 1, exactly 16384, and several chunks
plus a remainder; every slice is at most 16384 bytes and every slice
except possibly the last is exactly 16384 bytes. -/
theorem raw_chunking_reproduces_image (u8 : List Nat) :
    (rawChunks u8).flatten = u8
    ∧ (∀ c ∈ rawChunks u8, c.length ≤ CHUNK_SIZE)
    ∧ (∀ c ∈ (rawChunks u8).dropLast, c.length = CHUNK_SIZE) := by
  refine ⟨?_, rawLoop_length_le u8 u8.length 0 (by omega),
          rawLoop_dropLast_full u8 u8.length 0 (by omega)⟩
  rw [rawChunks, rawLoop_join u8 u8.length 0 (by omega), List.drop_zero]

theorem rawLoop_map_length (u8 : List Nat) :
    ∀ (n offset : Nat), u8.length - offset ≤ n →
      (rawLoop u8 offset).map List.length = sizesLoop u8.length offset := by
  intro n
  induction n with
  | zero =>
    intro offset hle
    rw [rawLoop, dif_neg (by omega), sizesLoop, dif_neg (by omega), List.map_nil]
  | succ n ih =>
    intro offset hle
    rw [rawLoop, sizesLoop]
    split
    · rename_i h
      have hC := chunk_size_pos
      rw [List.map_cons, ih (offset + CHUNK_SIZE) (by omega)]
      congr 1
      simp [List.length_take, List.length_drop, Nat.min_comm]
    · rename_i h
      rw [List.map_nil]

theorem writeSizes_eq_sizesLoop (u8 : List Nat) :
    writeSizes u8 = sizesLoop u8.length 0 :=
  rawLoop_map_length u8 u8.length 0 (by omega)

theorem jsRound_mono (den : Nat) {a b : Nat} (h : a ≤ b) :
    jsRound a den ≤ jsRound b den :=
  Nat.div_le_div_right (by omega)

theorem percentsOfSizes_chain (total : Nat) :
    ∀ (sizes : List Nat) (w : Nat),
      List.Chain' (· ≤ ·) (percentsOfSizes total w sizes) := by
  intro sizes
  induction sizes with
  | nil => intro w; simp [percentsOfSizes]
  | cons s rest ih =>
    intro w
    rw [percentsOfSizes]
    rcases rest with - | ⟨s', rest'⟩
    · simp [percentsOfSizes]
    · rw [percentsOfSizes]
      refine List.Chain'.cons ?_ ?_
      · exact jsRound_mono total (by omega)
      · have := ih (w + s)
        rwa [percentsOfSizes] at this

theorem jsRound_hundred_le (m total : Nat) (hm : m ≤ total) :
    jsRound (m * 100) total ≤ 100 := by
  rcases Nat.eq_zero_or_pos total with ht | ht
  · subst ht
    simp [jsRound]
  · have h1 : jsRound (m * 100) total ≤ jsRound (total * 100) total :=
      jsRound_mono total (Nat.mul_le_mul_right _ hm)
    refine le_trans h1 (le_of_eq ?_)
    rw [jsRound]
    rw [show 2 * (total * 100) + total = total + 2 * total * 100 by ring]
    rw [Nat.add_mul_div_left _ _ (by omega : 0 < 2 * total)]
    rw [Nat.div_eq_of_lt (by omega)]

theorem percentsOfSizes_le_100 (total : Nat) :
    ∀ (sizes : List Nat) (w : Nat), w + sizes.sum ≤ total →
      ∀ p ∈ percentsOfSizes total w sizes, p ≤ 100 := by
  intro sizes
  induction sizes with
  | nil => intro w _ p hp; simp [percentsOfSizes] at hp
  | cons s rest ih =>
    intro w hw p hp
    rw [percentsOfSizes] at hp
    rw [List.sum_cons] at hw
    rcases List.mem_cons.1 hp with rfl | hmem
    · exact jsRound_hundred_le (w + s) total (by omega)
    · exact ih (w + s) (by omega) p hmem

theorem rawChunks_sum_lengths (u8 : List Nat) :
    ((rawChunks u8).map List.length).sum = u8.length := by
  rw [← List.length_flatten, rawChunks,
      rawLoop_join u8 u8.length 0 (by omega), List.drop_zero]

theorem rawRunLoop_none (total : Nat) :
    ∀ (chunks : List (List Nat)) (w : Nat),
      rawRunLoop total w chunks none =
        ⟨chunks, percentsOfSizes total w (chunks.map List.length), true⟩ := by
  intro chunks
  induction chunks with
  | nil => intro w; rw [rawRunLoop]; simp [percentsOfSizes]
  | cons c rest ih =>
    intro w
    rw [rawRunLoop]
    rw [if_neg (by simp : ¬ (none : Option Nat) = some 0)]
    rw [show Option.map (fun x : Nat => x - 1) (none : Option Nat) = none from rfl]
    rw [ih (w + c.length)]
    simp [percentsOfSizes]

theorem getLast?_le_100 (l : List Nat) (hall : ∀ p ∈ l, p ≤ 100) :
    ∀ x ∈ l.getLast?, x ≤ 100 := by
  intro x hx
  obtain ⟨h, rfl⟩ := List.mem_getLast?_eq_getLast hx
  exact hall _ (List.getLast_mem h)

/-- C5: within one raw fallback transfer the percent values reported at
chunk boundaries are monotonically non-decreasing and the final reported
percent at successful completion is exactly 100 (the loop's last percent
is followed by the forced `updateProgress(100, ...)`); the fetch loop's
percent sequence in `installHandler` is likewise non-decreasing. -/
theorem progress_monotone_reaches_100 (s : SessionState) (u8 : List Nat)
    (total : Nat) (chunkLens : List Nat) (hp : s.port = true) :
    List.Chain' (· ≤ ·) ((fallbackRawStream s u8 none).reported)
    ∧ ((fallbackRawStream s u8 none).reported).getLast? = some 100
    ∧ List.Chain' (· ≤ ·) (fetchPercents total chunkLens) := by
  have hport : ¬ (s.port = false) := by simp [hp]
  have hrep : (fallbackRawStream s u8 none).reported
      = percentsOfSizes u8.length 0 ((rawChunks u8).map List.length) ++ [100] := by
    rw [fallbackRawStream, if_neg hport]
    simp [rawRunLoop_none]
  refine ⟨?_, ?_, percentsOfSizes_chain total chunkLens 0⟩
  · rw [hrep, List.chain'_append]
    refine ⟨percentsOfSizes_chain _ _ _, List.chain'_singleton _, ?_⟩
    intro x hx y hy
    simp only [List.head?_cons, Option.mem_def, Option.some.injEq] at hy
    subst hy
    refine getLast?_le_100 _ ?_ x hx
    exact percentsOfSizes_le_100 u8.length _ 0
      (by rw [rawChunks_sum_lengths]; omega)
  · rw [hrep, List.getLast?_concat]

/-- Witness for C5 at a concrete open session, a 3-byte image and a
2-chunk fetch. -/
theorem progress_monotone_reaches_100_witness :
    openSession.port = true
    ∧ (List.Chain' (· ≤ ·) ((fallbackRawStream openSession [7, 8, 9] none).reported)
       ∧ ((fallbackRawStream openSession [7, 8, 9] none).reported).getLast? = some 100
       ∧ List.Chain' (· ≤ ·) (fetchPercents 10 [4, 6])) :=
  ⟨rfl, progress_monotone_reaches_100 openSession [7, 8, 9] 10 [4, 6] rfl⟩

theorem sizesLoop_40000 : sizesLoop 40000 0 = [16384, 16384, 7232] := by
  have h3 : sizesLoop 40000 49152 = ([] : List Nat) := by
    rw [sizesLoop, dif_neg (by norm_num)]
  have h2 : sizesLoop 40000 32768 = [7232] := by
    rw [sizesLoop, dif_pos (by norm_num)]
    norm_num [CHUNK_SIZE, h3]
  have h1 : sizesLoop 40000 16384 = [16384, 7232] := by
    rw [sizesLoop, dif_pos (by norm_num)]
    norm_num [CHUNK_SIZE, h2]
  rw [sizesLoop, dif_pos (by norm_num)]
  norm_num [CHUNK_SIZE, h1]

/-- C4 counterexample: on a 40000-byte image the write sizes are indeed
[16384, 16384, 7232], but the percent values computed by
`Math.round((offset+slice.length)/total*100)` are 41, 82, 100
(rounds of 40.96, 81.92, 100), not 40, 81, 100 as the claim states. -/
theorem raw_40000_percents_counterexample :
    ¬ (writeSizes (List.replicate 40000 0) = [16384, 16384, 7232]
       ∧ percents (List.replicate 40000 0) = [40, 81, 100]) := by
  rintro ⟨-, hp⟩
  rw [percents, writeSizes_eq_sizesLoop, List.length_replicate, sizesLoop_40000] at hp
  rw [show percentsOfSizes 40000 0 [16384, 16384, 7232] = [41, 82, 100] from rfl] at hp
  exact (by decide : ([41, 82, 100] : List Nat) ≠ [40, 81, 100]) hp

/-- C4 as amended: for a 40000-byte image the raw fallback writes slices
of sizes [16384, 16384, 7232] in that order, and the percent reported
after each write is [41, 82, 100] (Math.round of 40.96, 81.92, 100). -/
theorem raw_40000_writes_and_percents :
    writeSizes (List.replicate 40000 0) = [16384, 16384, 7232]
    ∧ percents (List.replicate 40000 0) = [41, 82, 100] := by
  constructor
  · rw [writeSizes_eq_sizesLoop, List.length_replicate, sizesLoop_40000]
  · rw [percents, writeSizes_eq_sizesLoop, List.length_replicate, sizesLoop_40000]
    rfl

/-- C7: on every exit path of `fallbackRawStream` — normal completion, a
thrown write error, or any other exception — the acquired writer is
released (`writer.releaseLock()` in the `finally` block) and
`state.writer` is reset to null, so no writer lock is held after the
transfer ends. -/
theorem writer_released_on_every_exit (s : SessionState) (u8 : List Nat)
    (failAt : Option Nat)
    (h : (fallbackRawStream s u8 failAt).writerAcquired = true) :
    (fallbackRawStream s u8 failAt).writerReleased = true
    ∧ (fallbackRawStream s u8 failAt).finalState.writer = false := by
  rw [fallbackRawStream] at h ⊢
  by_cases hs : s.port = false
  · rw [if_pos hs] at h
    exact absurd h (by simp)
  · rw [if_neg hs]
    exact ⟨rfl, rfl⟩

/-- Witness for C7 on an open session whose first write throws. -/
theorem writer_released_on_every_exit_witness :
    (fallbackRawStream openSession [1] (some 0)).writerAcquired = true
    ∧ ((fallbackRawStream openSession [1] (some 0)).writerReleased = true
       ∧ (fallbackRawStream openSession [1] (some 0)).finalState.writer = false) :=
  ⟨rfl, writer_released_on_every_exit openSession [1] (some 0) rfl⟩

/-- C3: whenever the structured path is entered and fails, the
orchestrator attempts the raw fallback exactly once, on exactly the
already-fetched bytes (the image is fetched exactly once), never enters
the structured path a second time, and a failure of that single fallback
attempt ends the operation in `failed`. -/
theorem structured_failure_single_fallback (env : InstallEnv)
    (hm : env.hasManifestUrl = true) (hp : env.hasPort = true)
    (hc : env.confirmed = true) (hf : env.fetchOk = true)
    (he : env.esptoolAvailable = true) (hs : env.structuredFails = true) :
    (installHandler env).2.filter InstallEvent.isFallback
      = [.fallbackAttempt env.fetchedBytes]
    ∧ (installHandler env).2.filter InstallEvent.isStructured
      = [.structuredAttempt env.fetchedBytes]
    ∧ ((installHandler env).2.filter InstallEvent.isFetch).length = 1
    ∧ (env.fallbackFails = true → (installHandler env).1 = .failed)
    ∧ (env.fallbackFails = false → (installHandler env).1 = .completed) := by
  rw [installHandler]
  cases hfb : env.fallbackFails <;>
    simp [hm, hp, hc, hf, he, hs, hfb, InstallEvent.isFallback,
          InstallEvent.isStructured, InstallEvent.isFetch]

/-- Witness for C3 on `envStructFail`. -/
theorem structured_failure_single_fallback_witness :
    (envStructFail.hasManifestUrl = true ∧ envStructFail.hasPort = true
     ∧ envStructFail.confirmed = true ∧ envStructFail.fetchOk = true
     ∧ envStructFail.esptoolAvailable = true
     ∧ envStructFail.structuredFails = true)
    ∧ ((installHandler envStructFail).2.filter InstallEvent.isFallback
        = [.fallbackAttempt envStructFail.fetchedBytes]
       ∧ (installHandler envStructFail).2.filter InstallEvent.isStructured
        = [.structuredAttempt envStructFail.fetchedBytes]
       ∧ ((installHandler envStructFail).2.filter InstallEvent.isFetch).length = 1
       ∧ (envStructFail.fallbackFails = true → (installHandler envStructFail).1 = .failed)
       ∧ (envStructFail.fallbackFails = false → (installHandler envStructFail).1 = .completed)) :=
  ⟨⟨rfl, rfl, rfl, rfl, rfl, rfl⟩,
   structured_failure_single_fallback envStructFail rfl rfl rfl rfl rfl rfl⟩

/-- C6: with no open port, `installHandler` returns at the
`if(!state.port)` guard before any fetch or write (its event trace is
empty), and `fallbackRawStream` itself throws `'No serial port'` before
acquiring a writer and performs zero writes. -/
theorem no_port_fails_before_any_write (env : InstallEnv) (s : SessionState)
    (u8 : List Nat) (failAt : Option Nat)
    (hm : env.hasManifestUrl = true) (hp : env.hasPort = false)
    (hs : s.port = false) :
    installHandler env = (.noPortAlert, [])
    ∧ (fallbackRawStream s u8 failAt).result = .error "No serial port"
    ∧ (fallbackRawStream s u8 failAt).writes = []
    ∧ (fallbackRawStream s u8 failAt).writerAcquired = false := by
  rw [installHandler, fallbackRawStream]
  simp [hm, hp, hs]

/-- Witness for C6: no-port environment and closed session. -/
theorem no_port_fails_before_any_write_witness :
    ({ envStructFail with hasPort := false } : InstallEnv).hasManifestUrl = true
    ∧ ({ envStructFail with hasPort := false } : InstallEnv).hasPort = false
    ∧ closedSession.port = false
    ∧ (installHandler { envStructFail with hasPort := false } = (.noPortAlert, [])
       ∧ (fallbackRawStream closedSession [1, 2] none).result = .error "No serial port"
       ∧ (fallbackRawStream closedSession [1, 2] none).writes = []
       ∧ (fallbackRawStream closedSession [1, 2] none).writerAcquired = false) :=
  ⟨rfl, rfl, rfl,
   no_port_fails_before_any_write { envStructFail with hasPort := false }
     closedSession [1, 2] none rfl rfl rfl⟩

/-- C8: closing the session is idempotent — close on an already-closed
session (no port held) is a no-op changing no state, and a successful
close resets port, reader and writer, so a second close immediately
after has no further effect. -/
theorem disconnect_idempotent (s : SessionState) :
    (s.port = false → disconnectSerial s = s)
    ∧ (s.port = true →
        (disconnectSerial s).port = false ∧ (disconnectSerial s).reader = false
        ∧ (disconnectSerial s).writer = false)
    ∧ disconnectSerial (disconnectSerial s) = disconnectSerial s := by
  by_cases h : s.port = false <;>
    simp [disconnectSerial, h]

/-- Witness for C8 at the concrete open session. -/
theorem disconnect_idempotent_witness :
    (openSession.port = false → disconnectSerial openSession = openSession)
    ∧ (openSession.port = true →
        (disconnectSerial openSession).port = false
        ∧ (disconnectSerial openSession).reader = false
        ∧ (disconnectSerial openSession).writer = false)
    ∧ disconnectSerial (disconnectSerial openSession) = disconnectSerial openSession :=
  disconnect_idempotent openSession

/-- C9: at most one install operation is in flight — an invocation that
begins while `isInstalling` is set returns immediately without starting
a second operation; when an operation does start, the install button is
disabled and every `updateButtons` during the operation keeps it
disabled; the button is re-enabled (for a full selection) only by the
completion step that clears `isInstalling`. -/
theorem single_operation_in_flight (s : UIState) :
    (s.isInstalling = true → handleInstallStart s = (s, false))
    ∧ ((handleInstallStart s).2 = true →
        (handleInstallStart s).1.isInstalling = true
        ∧ (handleInstallStart s).1.installBtnDisabled = true)
    ∧ (s.isInstalling = true → (updateButtons s).installBtnDisabled = true)
    ∧ (s.selectedProgram.isSome = true → s.selectedChip.isSome = true →
        s.selectedOled.isSome = true →
        (handleInstallFinish s).installBtnDisabled = false) := by
  refine ⟨?_, ?_, ?_, ?_⟩
  · intro h
    rw [handleInstallStart, if_pos (by simp [h])]
  · intro h
    by_cases hg : (s.selectedProgram.isNone || s.selectedChip.isNone
        || s.selectedOled.isNone || s.isInstalling) = true
    · rw [handleInstallStart, if_pos hg] at h
      exact absurd h (by simp)
    · rw [handleInstallStart, if_neg hg] at h ⊢
      simp [updateButtons]
  · intro h
    simp [updateButtons, h]
  · intro h1 h2 h3
    simp [handleInstallFinish, updateButtons, h1, h2, h3]

/-- Witness for C9 at the concrete busy and idle states. -/
theorem single_operation_in_flight_witness :
    ((busyUI.isInstalling = true → handleInstallStart busyUI = (busyUI, false))
     ∧ ((handleInstallStart busyUI).2 = true →
         (handleInstallStart busyUI).1.isInstalling = true
         ∧ (handleInstallStart busyUI).1.installBtnDisabled = true)
     ∧ (busyUI.isInstalling = true → (updateButtons busyUI).installBtnDisabled = true)
     ∧ (busyUI.selectedProgram.isSome = true → busyUI.selectedChip.isSome = true →
         busyUI.selectedOled.isSome = true →
         (handleInstallFinish busyUI).installBtnDisabled = false))
    ∧ ((idleUI.isInstalling = true → handleInstallStart idleUI = (idleUI, false))
       ∧ ((handleInstallStart idleUI).2 = true →
           (handleInstallStart idleUI).1.isInstalling = true
           ∧ (handleInstallStart idleUI).1.installBtnDisabled = true)
       ∧ (idleUI.isInstalling = true → (updateButtons idleUI).installBtnDisabled = true)
       ∧ (idleUI.selectedProgram.isSome = true → idleUI.selectedChip.isSome = true →
           idleUI.selectedOled.isSome = true →
           (handleInstallFinish idleUI).installBtnDisabled = false)) :=
  ⟨single_operation_in_flight busyUI, single_operation_in_flight idleUI⟩

/-- C2: for a fully-populated selection the handler builds the canonical
key by mapping the program id through the fixed bijection
('chatbot' ↦ 'ChatBotAI', 'mochinav' ↦ 'MochiNav') and joining with '|';
when the manifest holds that key the stored descriptor is returned
exactly, and when it does not, the result is the absent descriptor
(NotFound); the function is total, so it never throws. -/
theorem resolve_exact_or_notfound (m : List (String × FirmwareEntry))
    (s : SelState) (p c o : String)
    (hp : s.program = some p) (hc : s.chip = some c) (ho : s.oled = some o) :
    progKeyCompat "chatbot" = "ChatBotAI"
    ∧ progKeyCompat "mochinav" = "MochiNav"
    ∧ (onSelectionChanged m s).manifest
        = m.lookup (progKeyCompat p ++ "|" ++ c ++ "|" ++ o)
    ∧ (∀ e, m.lookup (canonicalKey p c o) = some e →
        (onSelectionChanged m s).manifest = some e)
    ∧ (m.lookup (canonicalKey p c o) = none →
        (onSelectionChanged m s).manifest = none) := by
  have hman : (onSelectionChanged m s).manifest = m.lookup (canonicalKey p c o) := by
    rw [onSelectionChanged, hp, hc, ho]
  refine ⟨by decide, by decide, ?_, ?_, ?_⟩
  · rw [hman, canonicalKey]
  · intro e he; rw [hman, he]
  · intro he; rw [hman, he]

/-- Witness for C2 at the concrete selection and manifest. -/
theorem resolve_exact_or_notfound_witness :
    (sampleSel.program = some "chatbot"
     ∧ sampleSel.chip = some "ESP32-S3-M16R8"
     ∧ sampleSel.oled = some "OLED-1.3")
    ∧ (progKeyCompat "chatbot" = "ChatBotAI"
       ∧ progKeyCompat "mochinav" = "MochiNav"
       ∧ (onSelectionChanged sampleManifest sampleSel).manifest
           = sampleManifest.lookup
               (progKeyCompat "chatbot" ++ "|" ++ "ESP32-S3-M16R8" ++ "|" ++ "OLED-1.3")
       ∧ (∀ e, sampleManifest.lookup
             (canonicalKey "chatbot" "ESP32-S3-M16R8" "OLED-1.3") = some e →
           (onSelectionChanged sampleManifest sampleSel).manifest = some e)
       ∧ (sampleManifest.lookup
             (canonicalKey "chatbot" "ESP32-S3-M16R8" "OLED-1.3") = none →
           (onSelectionChanged sampleManifest sampleSel).manifest = none)) :=
  ⟨⟨rfl, rfl, rfl⟩,
   resolve_exact_or_notfound sampleManifest sampleSel
     "chatbot" "ESP32-S3-M16R8" "OLED-1.3" rfl rfl rfl⟩

/-- C10: on the offered program set ('chatbot', 'mochinav') the compat
and original selection-change handlers compute the identical canonical
manifest key, so the two resolver embeddings agree there. -/
theorem compat_orig_keys_agree (p chip oled : String)
    (h : p = "chatbot" ∨ p = "mochinav") :
    canonicalKey p chip oled = canonicalKeyOrig p chip oled := by
  rcases h with rfl | rfl <;>
    simp [canonicalKey, canonicalKeyOrig, progKeyCompat, progKeyOrig]

/-- Witness for C10 at the chatbot program. -/
theorem compat_orig_keys_agree_witness :
    ("chatbot" = "chatbot" ∨ "chatbot" = "mochinav")
    ∧ canonicalKey "chatbot" "ESP32-S3-M16R8" "OLED-1.3"
        = canonicalKeyOrig "chatbot" "ESP32-S3-M16R8" "OLED-1.3" :=
  ⟨Or.inl rfl,
   compat_orig_keys_agree "chatbot" "ESP32-S3-M16R8" "OLED-1.3" (Or.inl rfl)⟩

end Flasher
